import Mathlib

/-!
Verification of the wallet command gateway and the restart sequencer of
go-btfs (`core/commands/wallet.go`, `core/commands/restart.go`).

Each command's `Run` function is embedded as a pure Lean function.  External
collaborators — the node/config lookup, the wallet delegate calls, and the
filesystem/process operations of the restart path — are passed in as explicit
oracle arguments recording their outcomes, and the restart embedding returns
the ordered trace of external effects it performs.  The AES helpers of the
wallet package are not part of the excerpt and are modelled from the spec
(see `EncryptWithAES` / `DecryptWithAES`).
-/

namespace BTFS

/-- Modelled from the spec: ciphertexts produced by the wallet package's
password-based AES encryption (`wallet.EncryptWithAES`, absent from src/).
The spec fixes only that encryption is deterministic and that decryption with
the same password recovers the plaintext exactly, so a ciphertext is modelled
abstractly as the pair of the password it was produced with and the
plaintext. -/
structure Ciphertext where
  pw : String
  pt : String
  deriving DecidableEq, Repr

/-- The `Identity` section of the BTFS config (`config.Config.Identity`).
Pre-initialization the encrypted fields are absent (`none`), modelling Go's
empty strings that are not valid ciphertexts. -/
structure IdentitySection where
  PrivKey : String
  Mnemonic : String
  EncryptedPrivKey : Option Ciphertext
  EncryptedMnemonic : Option Ciphertext
  deriving DecidableEq, Repr

/-- `config.Config.UI.Wallet`. -/
structure WalletSection where
  Initialized : Bool
  deriving DecidableEq, Repr

/-- `config.Config.UI`. -/
structure UISection where
  Wallet : WalletSection
  deriving DecidableEq, Repr

/-- The node configuration, restricted to the fields the wallet commands
touch; `otherFields` stands for every other configuration field, so that
frame conditions are statable. -/
structure Config where
  Identity : IdentitySection
  UI : UISection
  otherFields : String
  deriving DecidableEq, Repr

/-- Errors returned by the wallet command `Run` functions.  In Go these are
`error` values; the constructors record which `errors.New` site (or which
propagated error) produced them.  `delegateErr` carries the error text of the
external wallet delegate after the command's rewriting, `parseErr` the
argument rejected by `strconv.ParseInt`. -/
inductive WalletError where
  | missingPassword
  | incorrectPassword
  | alreadyInit
  | parseErr (arg : String)
  | delegateErr (msg : String)
  | encryptErr (msg : String)
  deriving DecidableEq, Repr

/-- Modelled from the spec: `wallet.EncryptWithAES` (absent from src/),
deterministic symmetric encryption with a password-derived key. -/
def EncryptWithAES (password plaintext : String) : Except String Ciphertext :=
  .ok { pw := password, pt := plaintext }

/-- Modelled from the spec: `wallet.DecryptWithAES` (absent from src/).
Decryption succeeds exactly when the supplied password matches the one the
ciphertext was produced with; decrypting a missing/empty ciphertext errors. -/
def DecryptWithAES (password : String) (c : Option Ciphertext) : Except String String :=
  match c with
  | none => .error "invalid ciphertext"
  | some c => if c.pw = password then .ok c.pt else .error "cipher: decryption failed"

/-- Embedding of `validatePassword` (wallet.go:411-423).  The password option
is looked up with a Go type assertion that defaults to the empty string when
the option is absent, hence the `Option String` argument.  `missingPassword`
models the error whose text asks the user to supply `-p` and hints to set a
password first; `incorrectPassword` models `errors.New("incorrect password")`,
returned when decryption errors or the decrypted value differs from
`cfg.Identity.PrivKey`. -/
def validatePassword (cfg : Config) (passwordOpt : Option String) : Except WalletError Unit :=
  let password := passwordOpt.getD ""
  if password = "" then
    .error .missingPassword
  else
    match DecryptWithAES password cfg.Identity.EncryptedPrivKey with
    | .error _ => .error .incorrectPassword
    | .ok privK => if cfg.Identity.PrivKey = privK then .ok () else .error .incorrectPassword

/-- Embedding of Go's `strconv.ParseInt(s, 10, 64)`: an optional single sign,
then one or more decimal digits, and the value must fit in int64.  Returns
`none` on any syntax or range error. -/
def goParseInt64 (s : String) : Option Int :=
  let (sign, digits) :=
    match s.toList with
    | '+' :: rest => ((1 : Int), rest)
    | '-' :: rest => ((-1 : Int), rest)
    | l => ((1 : Int), l)
  if digits.isEmpty then none
  else if digits.all Char.isDigit then
    let mag : Nat := digits.foldl (fun acc c => acc * 10 + (c.toNat - 48)) 0
    let v : Int := sign * (mag : Int)
    if -(2 ^ 63) ≤ v ∧ v ≤ 2 ^ 63 - 1 then some v else none
  else none

/-- Go's `strings.Contains s sub`: `sub` occurs as a contiguous substring
of `s`. -/
def goContains (s sub : String) : Bool :=
  decide (List.IsInfix sub.toList s.toList)

/-- The canonical deposit threshold message (wallet.go:136). -/
def depositMinMsg : String := "Please deposit at least 10,000,000µBTT(=10BTT)"

/-- The canonical withdraw threshold message (wallet.go:188). -/
def withdrawMinMsg : String := "Please withdraw at least 1,000,000,000µBTT(=1000BTT)"

/-- Embedding of `walletDepositCmd.Run` (wallet.go:105-145).  `delegateResult`
is the outcome of the external `wallet.WalletDeposit` call (`none` = success,
`some msg` = its error text); `daemon` is `currentNode.IsDaemon`; `async` is
the `--async` option, forwarded to the delegate.  On success the returned
string is the emitted `MessageOutput.Message`. -/
def walletDepositRun (cfg : Config) (amountArg : String) (passwordOpt : Option String)
    (async : Bool) (daemon : Bool) (delegateResult : Option String) :
    Except WalletError String :=
  match validatePassword cfg passwordOpt with
  | .error e => .error e
  | .ok _ =>
    match goParseInt64 amountArg with
    | none => .error (.parseErr amountArg)
    | some _ =>
      match delegateResult with
      | some msg =>
        if goContains msg "Please deposit at least" then .error (.delegateErr depositMinMsg)
        else .error (.delegateErr msg)
      | none =>
        if daemon then
          .ok "BTFS wallet deposit submitted. Please wait one minute for the transaction to confirm."
        else
          .ok "BTFS wallet deposit Done."

/-- Embedding of `walletWithdrawCmd.Run` (wallet.go:168-195); `delegateResult`
is the outcome of `wallet.WalletWithdraw`. -/
def walletWithdrawRun (cfg : Config) (amountArg : String) (passwordOpt : Option String)
    (delegateResult : Option String) : Except WalletError String :=
  match validatePassword cfg passwordOpt with
  | .error e => .error e
  | .ok _ =>
    match goParseInt64 amountArg with
    | none => .error (.parseErr amountArg)
    | some _ =>
      match delegateResult with
      | some msg =>
        if goContains msg "Please withdraw at least" then .error (.delegateErr withdrawMinMsg)
        else .error (.delegateErr msg)
      | none =>
        .ok "BTFS wallet withdraw submitted. Please wait one minute for the transaction to confirm."

/-- Return value of the external `wallet.TransferBTT`. -/
structure TransferRet where
  TxId : Int
  Result : Bool
  deriving DecidableEq, Repr

/-- `TransferResult` (wallet.go:425-428). -/
structure TransferResult where
  Result : Bool
  Message : String
  deriving DecidableEq, Repr

/-- Embedding of `walletTransferCmd.Run` (wallet.go:382-407): gate, then parse
`req.Arguments[1]`, then the delegate call. -/
def walletTransferRun (cfg : Config) (toArg amountArg : String) (passwordOpt : Option String)
    (delegateResult : Except String TransferRet) : Except WalletError TransferResult :=
  match validatePassword cfg passwordOpt with
  | .error e => .error e
  | .ok _ =>
    match goParseInt64 amountArg with
    | none => .error (.parseErr amountArg)
    | some _ =>
      match delegateResult with
      | .error msg => .error (.delegateErr msg)
      | .ok ret =>
        .ok { Result := ret.Result, Message := "transaction " ++ toString ret.TxId ++ " sent" }

/-- Embedding of `walletPasswordCmd.Run` (wallet.go:254-281): fails when
`cfg.UI.Wallet.Initialized` is already true (`"Already init, cannot set
password again."`), otherwise encrypts the mnemonic and the private key with
the supplied password, stores the ciphertexts in the config and persists it
via `SetConfig` (persistence is assumed to succeed; its IO error is outside
the claims).  Returns the updated config together with the emitted message. -/
def walletPasswordRun (cfg : Config) (password : String) :
    Except WalletError (Config × String) :=
  if cfg.UI.Wallet.Initialized then
    .error .alreadyInit
  else
    match EncryptWithAES password cfg.Identity.Mnemonic with
    | .error e => .error (.encryptErr e)
    | .ok cipherMnemonic =>
      match EncryptWithAES password cfg.Identity.PrivKey with
      | .error e => .error (.encryptErr e)
      | .ok cipherPrivKey =>
        .ok ({ cfg with Identity := { cfg.Identity with
                 EncryptedMnemonic := some cipherMnemonic,
                 EncryptedPrivKey := some cipherPrivKey } },
             "Password set.")

/-- The key material emitted by the keys command: the plaintext string fields
pre-initialization and the encrypted fields post-initialization. -/
inductive KeyMaterial where
  | plain (s : String)
  | encrypted (c : Option Ciphertext)
  deriving DecidableEq, Repr

/-- `Keys` (wallet.go:344-347). -/
structure Keys where
  PrivateKey : KeyMaterial
  Mnemonic : KeyMaterial
  deriving DecidableEq, Repr

/-- Embedding of `walletKeysCmd.Run` (wallet.go:311-342): emits the plaintext
private key and mnemonic when the wallet is not initialized and the encrypted
fields when it is.  The command declares no password option and performs no
`validatePassword` call. -/
def walletKeysRun (cfg : Config) : Except WalletError Keys :=
  if !cfg.UI.Wallet.Initialized then
    .ok { PrivateKey := .plain cfg.Identity.PrivKey,
          Mnemonic := .plain cfg.Identity.Mnemonic }
  else
    .ok { PrivateKey := .encrypted cfg.Identity.EncryptedPrivKey,
          Mnemonic := .encrypted cfg.Identity.EncryptedMnemonic }

/-- External effects performed by `restartCmd.Run`, in order:
`path.MoveFolder()`, `path.WriteProperties()`, `daemonCmd.Start()` (with the
optional `BTFS_PATH` environment override recorded) and `os.Exit(0)`. -/
inductive REvent where
  | moveFolder
  | writeProperties
  | startChild (btfsPathOverride : Option String)
  | exitZero
  deriving DecidableEq, Repr

/-- Inputs of `restartCmd.Run` (restart.go:37-56): the
`--post-path-modification` option, the package-level `path.StorePath` and
`path.OriginPath`, and the outcomes of the three fallible external calls
(`none` = success, `some msg` = error text). -/
structure RestartInput where
  postPathModification : Bool
  StorePath : String
  OriginPath : String
  moveFolderResult : Option String
  writePropertiesResult : Option String
  startResult : Option String
  deriving DecidableEq, Repr

/-- Embedding of `restartCmd.Run` (restart.go:37-56).  Returns the error the
`Run` function returns (`none` when it reaches `os.Exit(0)`) together with
the ordered trace of external effects performed. -/
def restartRun (i : RestartInput) : Option String × List REvent :=
  if i.postPathModification = true ∧ i.StorePath ≠ "" ∧ i.OriginPath ≠ "" then
    match i.moveFolderResult with
    | some e => (some e, [.moveFolder])
    | none =>
      match i.writePropertiesResult with
      | some e => (some e, [.moveFolder, .writeProperties])
      | none =>
        match i.startResult with
        | some e => (some e, [.moveFolder, .writeProperties, .startChild (some i.StorePath)])
        | none =>
          (none, [.moveFolder, .writeProperties, .startChild (some i.StorePath), .exitZero])
  else
    match i.startResult with
    | some e => (some e, [.startChild none])
    | none => (none, [.startChild none, .exitZero])

/-- Updating a config the way a successful `walletPasswordCmd.Run` does:
only the two encrypted fields change. -/
def setEncrypted (cfg : Config) (password : String) : Config :=
  { cfg with Identity := { cfg.Identity with
      EncryptedMnemonic := some { pw := password, pt := cfg.Identity.Mnemonic },
      EncryptedPrivKey := some { pw := password, pt := cfg.Identity.PrivKey } } }

/-- A fresh, uninitialized wallet config (plaintext key material only). -/
def cfg0 : Config :=
  { Identity := { PrivKey := "K", Mnemonic := "M",
                  EncryptedPrivKey := none, EncryptedMnemonic := none },
    UI := { Wallet := { Initialized := false } },
    otherFields := "other" }

/-- `cfg0` after a first password-set with password `"a"`. -/
def cfg0a : Config :=
  { Identity := { PrivKey := "K", Mnemonic := "M",
                  EncryptedPrivKey := some { pw := "a", pt := "K" },
                  EncryptedMnemonic := some { pw := "a", pt := "M" } },
    UI := { Wallet := { Initialized := false } },
    otherFields := "other" }

/-- `cfg0a` after a second password-set with password `"b"`. -/
def cfg0ab : Config :=
  { Identity := { PrivKey := "K", Mnemonic := "M",
                  EncryptedPrivKey := some { pw := "b", pt := "K" },
                  EncryptedMnemonic := some { pw := "b", pt := "M" } },
    UI := { Wallet := { Initialized := false } },
    otherFields := "other" }

/-- An initialized wallet config whose stored key was encrypted with
password `"pw"`. -/
def cfgInit : Config :=
  { Identity := { PrivKey := "K", Mnemonic := "M",
                  EncryptedPrivKey := some { pw := "pw", pt := "K" },
                  EncryptedMnemonic := some { pw := "pw", pt := "M" } },
    UI := { Wallet := { Initialized := true } },
    otherFields := "other" }

/-- A config whose stored ciphertext was produced with the empty password. -/
def cfgEmptyPw : Config :=
  { Identity := { PrivKey := "K", Mnemonic := "M",
                  EncryptedPrivKey := some { pw := "", pt := "K" },
                  EncryptedMnemonic := some { pw := "", pt := "M" } },
    UI := { Wallet := { Initialized := true } },
    otherFields := "other" }

/-- Restart input with the post-path-modification flag unset. -/
def iNoReloc : RestartInput :=
  { postPathModification := false, StorePath := "", OriginPath := "",
    moveFolderResult := none, writePropertiesResult := none, startResult := none }

/-- Restart input with the flag set, both paths non-empty, all calls fine. -/
def iReloc : RestartInput :=
  { postPathModification := true, StorePath := "dst", OriginPath := "org",
    moveFolderResult := none, writePropertiesResult := none, startResult := none }

/-- Restart input whose `MoveFolder` call fails. -/
def iMoveFail : RestartInput :=
  { postPathModification := true, StorePath := "dst", OriginPath := "org",
    moveFolderResult := some "boom", writePropertiesResult := none, startResult := none }

/-- C5: for every stored ciphertext and reference key, calling the credential
gate with an empty supplied password (option absent, or present but empty)
fails with `MissingPassword`, uniformly in the config — so no decryption is
attempted and no keys are compared. -/
theorem validatePassword_empty_missingPassword (cfg : Config) :
    validatePassword cfg none = .error .missingPassword ∧
    validatePassword cfg (some "") = .error .missingPassword := by
  constructor <;> simp [validatePassword]

/-- C1 (counterexample): the key-retrieval operation emits key material —
including the plaintext private key — on a config where the credential gate
would reject every supplied password, so the gate is not called first. -/
theorem walletKeys_gate_counterexample :
    walletKeysRun cfg0 =
      .ok { PrivateKey := .plain "K", Mnemonic := .plain "M" } ∧
    validatePassword cfg0 none = .error .missingPassword ∧
    validatePassword cfg0 (some "anything") = .error .incorrectPassword := by
  refine ⟨rfl, rfl, rfl⟩

/-- C1 (amended): the key-retrieval operation performs no credential-gate
check at all — it takes no password and returns key material unconditionally:
the plaintext private key and mnemonic when `Initialized` is false, and the
encrypted fields when it is true. -/
theorem walletKeys_returns_keys_without_gate (cfg : Config) :
    walletKeysRun cfg =
      .ok (if cfg.UI.Wallet.Initialized then
             { PrivateKey := KeyMaterial.encrypted cfg.Identity.EncryptedPrivKey,
               Mnemonic := KeyMaterial.encrypted cfg.Identity.EncryptedMnemonic }
           else
             { PrivateKey := KeyMaterial.plain cfg.Identity.PrivKey,
               Mnemonic := KeyMaterial.plain cfg.Identity.Mnemonic }) := by
  unfold walletKeysRun
  cases h : cfg.UI.Wallet.Initialized <;> simp [h]

/-- C2 (counterexample): a deposit whose amount `"abc"` is not a parseable
integer and whose password is absent fails with the credential gate's
`MissingPassword` error, not with the amount error — so the amount check does
not run before the credential gate. -/
theorem amount_parse_order_counterexample :
    walletDepositRun cfg0 "abc" none false false none = .error .missingPassword ∧
    goParseInt64 "abc" = none := by
  refine ⟨rfl, rfl⟩

/-- C2 (amended): for deposit/withdraw/transfer with an unparseable amount,
the credential gate runs first — a gate failure is returned as such — and
when the gate succeeds the operation fails with the amount-parse error
(the propagated `strconv.ParseInt` error), independently of the external
wallet delegate's outcome, i.e. before any delegate call. -/
theorem invalidAmount_checked_after_gate (cfg : Config) (pwOpt : Option String)
    (e : WalletError) (toArg amt : String) (async daemon : Bool) (d d' : Option String)
    (t t' : Except String TransferRet) (hbad : goParseInt64 amt = none) :
    (validatePassword cfg pwOpt = .error e →
       walletDepositRun cfg amt pwOpt async daemon d = .error e ∧
       walletWithdrawRun cfg amt pwOpt d = .error e ∧
       walletTransferRun cfg toArg amt pwOpt t = .error e) ∧
    (validatePassword cfg pwOpt = .ok () →
       walletDepositRun cfg amt pwOpt async daemon d = .error (.parseErr amt) ∧
       walletDepositRun cfg amt pwOpt async daemon d' = .error (.parseErr amt) ∧
       walletWithdrawRun cfg amt pwOpt d = .error (.parseErr amt) ∧
       walletWithdrawRun cfg amt pwOpt d' = .error (.parseErr amt) ∧
       walletTransferRun cfg toArg amt pwOpt t = .error (.parseErr amt) ∧
       walletTransferRun cfg toArg amt pwOpt t' = .error (.parseErr amt)) := by
  constructor
  · intro hgate
    refine ⟨?_, ?_, ?_⟩ <;>
      simp [walletDepositRun, walletWithdrawRun, walletTransferRun, hgate]
  · intro hgate
    refine ⟨?_, ?_, ?_, ?_, ?_, ?_⟩ <;>
      simp [walletDepositRun, walletWithdrawRun, walletTransferRun, hgate, hbad]

/-- Witness for the amended C2 at a concrete config, a wrong-typed amount
`"abc"`, the correct password and two distinct delegate outcomes. -/
theorem invalidAmount_checked_after_gate_witness :
    (validatePassword cfgInit (some "pw") = .error .missingPassword →
       walletDepositRun cfgInit "abc" (some "pw") false false (some "raw") =
         .error .missingPassword ∧
       walletWithdrawRun cfgInit "abc" (some "pw") (some "raw") = .error .missingPassword ∧
       walletTransferRun cfgInit "addr" "abc" (some "pw") (.error "raw") =
         .error .missingPassword) ∧
    (validatePassword cfgInit (some "pw") = .ok () →
       walletDepositRun cfgInit "abc" (some "pw") false false (some "raw") =
         .error (.parseErr "abc") ∧
       walletDepositRun cfgInit "abc" (some "pw") false false none =
         .error (.parseErr "abc") ∧
       walletWithdrawRun cfgInit "abc" (some "pw") (some "raw") = .error (.parseErr "abc") ∧
       walletWithdrawRun cfgInit "abc" (some "pw") none = .error (.parseErr "abc") ∧
       walletTransferRun cfgInit "addr" "abc" (some "pw") (.error "raw") =
         .error (.parseErr "abc") ∧
       walletTransferRun cfgInit "addr" "abc" (some "pw") (.ok { TxId := 7, Result := true }) =
         .error (.parseErr "abc")) :=
  invalidAmount_checked_after_gate cfgInit (some "pw") .missingPassword "addr" "abc"
    false false (some "raw") none (.error "raw") (.ok { TxId := 7, Result := true }) rfl

/-- C3 (counterexample): on a record whose `Initialized` flag is false, two
successive password-set calls both succeed — the second is not rejected with
`AlreadyInitialized`, and the encrypted fields are rewritten. -/
theorem setPassword_twice_counterexample :
    walletPasswordRun cfg0 "a" = .ok (cfg0a, "Password set.") ∧
    walletPasswordRun cfg0a "b" = .ok (cfg0ab, "Password set.") := by
  refine ⟨rfl, rfl⟩

/-- C3 (amended): the password-set operation rejects with `AlreadyInitialized`
exactly when the `Initialized` flag is already true; a successful call does
not set the flag, so a repeat invocation on a record whose flag is false
succeeds again and overwrites the encrypted fields. -/
theorem setPassword_repeat_succeeds (cfg cfgT : Config) (p q : String)
    (h : cfg.UI.Wallet.Initialized = false) (hT : cfgT.UI.Wallet.Initialized = true) :
    walletPasswordRun cfg p = .ok (setEncrypted cfg p, "Password set.") ∧
    (setEncrypted cfg p).UI.Wallet.Initialized = false ∧
    walletPasswordRun (setEncrypted cfg p) q =
      .ok (setEncrypted (setEncrypted cfg p) q, "Password set.") ∧
    walletPasswordRun cfgT p = .error .alreadyInit := by
  refine ⟨?_, ?_, ?_, ?_⟩ <;>
    simp [walletPasswordRun, setEncrypted, EncryptWithAES, h, hT]

/-- Witness for the amended C3 on concrete configs. -/
theorem setPassword_repeat_succeeds_witness :
    walletPasswordRun cfg0 "a" = .ok (setEncrypted cfg0 "a", "Password set.") ∧
    (setEncrypted cfg0 "a").UI.Wallet.Initialized = false ∧
    walletPasswordRun (setEncrypted cfg0 "a") "b" =
      .ok (setEncrypted (setEncrypted cfg0 "a") "b", "Password set.") ∧
    walletPasswordRun cfgInit "a" = .error .alreadyInit :=
  setPassword_repeat_succeeds cfg0 cfgInit "a" "b" rfl rfl

/-- C4 (counterexample): for the password `P = ""`, the ciphertext produced
by encrypting the reference key `"K"` with `P` does not validate under `P`:
the gate fails with `MissingPassword` instead of succeeding, because empty
passwords are rejected before decryption. -/
theorem validatePassword_empty_encryption_counterexample :
    EncryptWithAES "" "K" = .ok { pw := "", pt := "K" } ∧
    cfgEmptyPw.Identity.EncryptedPrivKey = some { pw := "", pt := "K" } ∧
    cfgEmptyPw.Identity.PrivKey = "K" ∧
    validatePassword cfgEmptyPw (some "") = .error .missingPassword := by
  refine ⟨rfl, rfl, rfl, rfl⟩

/-- C4 (amended): for every non-empty password `P` and stored ciphertext
produced by encrypting the reference plaintext key `K` with `P`,
`validate` succeeds under `P`, and fails with `IncorrectPassword` under any
non-empty password `Q ≠ P`; the unamended claim fails only at `P = ""`,
where the gate returns `MissingPassword` instead. -/
theorem validatePassword_matches_iff (cfg : Config) (K P Q : String) (c : Ciphertext)
    (hP : P ≠ "") (henc : EncryptWithAES P K = .ok c)
    (hstore : cfg.Identity.EncryptedPrivKey = some c)
    (hK : cfg.Identity.PrivKey = K) :
    validatePassword cfg (some P) = .ok () ∧
    (Q ≠ "" → Q ≠ P → validatePassword cfg (some Q) = .error .incorrectPassword) := by
  have hc : c = { pw := P, pt := K } := by
    simpa [EncryptWithAES] using henc.symm
  subst hc
  constructor
  · simp [validatePassword, DecryptWithAES, hstore, hK, hP]
  · intro hQ hQP
    simp [validatePassword, DecryptWithAES, hstore, hK, hQ, Ne.symm hQP]

/-- Witness for the amended C4 with the stored key of `cfgInit`, the correct
password `"pw"` and the wrong password `"x"`. -/
theorem validatePassword_matches_iff_witness :
    validatePassword cfgInit (some "pw") = .ok () ∧
    ("x" ≠ "" → "x" ≠ "pw" → validatePassword cfgInit (some "x") = .error .incorrectPassword) :=
  validatePassword_matches_iff cfgInit "K" "pw" "x" { pw := "pw", pt := "K" }
    (by decide) rfl rfl rfl

/-- C6: when the gate and the amount parse succeed, a deposit delegate error
containing `"Please deposit at least"` is rewritten to the exact canonical
deposit message, a withdraw delegate error containing
`"Please withdraw at least"` is rewritten to the exact canonical withdraw
message, and delegate errors without these substrings pass through
unmodified. -/
theorem threshold_error_rewrite (cfg : Config) (pwOpt : Option String)
    (amt : String) (v : Int) (async daemon : Bool) (msgD msgW : String)
    (hgate : validatePassword cfg pwOpt = .ok ())
    (hamt : goParseInt64 amt = some v) :
    walletDepositRun cfg amt pwOpt async daemon (some msgD) =
      .error (.delegateErr
        (if goContains msgD "Please deposit at least" then depositMinMsg else msgD)) ∧
    walletWithdrawRun cfg amt pwOpt (some msgW) =
      .error (.delegateErr
        (if goContains msgW "Please withdraw at least" then withdrawMinMsg else msgW)) := by
  constructor
  · by_cases h : goContains msgD "Please deposit at least" = true <;>
      simp [walletDepositRun, hgate, hamt, h]
  · by_cases h : goContains msgW "Please withdraw at least" = true <;>
      simp [walletWithdrawRun, hgate, hamt, h]

/-- Witness for C6: a deposit delegate error containing the threshold phrase
is rewritten to the canonical message, and a withdraw delegate error without
the phrase passes through verbatim. -/
theorem threshold_error_rewrite_witness :
    walletDepositRun cfgInit "5" (some "pw") false false
        (some "rpc: Please deposit at least 10000000") =
      .error (.delegateErr depositMinMsg) ∧
    walletWithdrawRun cfgInit "5" (some "pw") (some "rpc: network unreachable") =
      .error (.delegateErr "rpc: network unreachable") := by
  have h := threshold_error_rewrite cfgInit (some "pw") "5" 5 false false
    "rpc: Please deposit at least 10000000" "rpc: network unreachable" rfl rfl
  have hc1 : goContains "rpc: Please deposit at least 10000000" "Please deposit at least" = true := by
    decide
  have hc2 : goContains "rpc: network unreachable" "Please withdraw at least" = false := by
    decide
  rw [hc1, hc2] at h
  simpa using h

/-- C7: the restart operation calls `MoveFolder` iff the
post-path-modification flag is set and both paths are non-empty; in every
other case the trace is exactly a child spawn with no `BTFS_PATH` override
(followed by `os.Exit(0)` when the spawn succeeds) — no relocation and no
property-write occur. -/
theorem restart_relocation_iff (i : RestartInput) :
    (REvent.moveFolder ∈ (restartRun i).2 ↔
       (i.postPathModification = true ∧ i.StorePath ≠ "" ∧ i.OriginPath ≠ "")) ∧
    (¬(i.postPathModification = true ∧ i.StorePath ≠ "" ∧ i.OriginPath ≠ "") →
       restartRun i =
         (i.startResult,
          REvent.startChild none ::
            (if i.startResult.isSome then [] else [REvent.exitZero]))) := by
  by_cases h : i.postPathModification = true ∧ i.StorePath ≠ "" ∧ i.OriginPath ≠ ""
  · refine ⟨?_, fun hn => absurd h hn⟩
    unfold restartRun
    rw [if_pos h]
    cases hm : i.moveFolderResult <;> cases hw : i.writePropertiesResult <;>
      cases hs : i.startResult <;> simp [h]
  · constructor
    · unfold restartRun
      rw [if_neg h]
      cases hs : i.startResult <;> simp [h]
    · intro _
      unfold restartRun
      rw [if_neg h]
      cases hs : i.startResult <;> simp [hs]

/-- Witness for C7 at a flag-off input: the trace is a bare spawn with no
override, then exit. -/
theorem restart_relocation_iff_witness :
    (REvent.moveFolder ∈ (restartRun iNoReloc).2 ↔
       (iNoReloc.postPathModification = true ∧ iNoReloc.StorePath ≠ "" ∧
        iNoReloc.OriginPath ≠ "")) ∧
    (¬(iNoReloc.postPathModification = true ∧ iNoReloc.StorePath ≠ "" ∧
        iNoReloc.OriginPath ≠ "") →
       restartRun iNoReloc =
         (iNoReloc.startResult,
          REvent.startChild none ::
            (if iNoReloc.startResult.isSome then [] else [REvent.exitZero]))) :=
  restart_relocation_iff iNoReloc

/-- C8: during a restart with the flag set, both paths non-empty and
relocation and property-write succeeding, the effects happen in the order
`MoveFolder`, `WriteProperties`, child spawn with `BTFS_PATH` set to the
destination path — and `os.Exit(0)` follows exactly when the spawn
succeeded. -/
theorem restart_success_order (i : RestartInput)
    (h1 : i.postPathModification = true) (h2 : i.StorePath ≠ "") (h3 : i.OriginPath ≠ "")
    (h4 : i.moveFolderResult = none) (h5 : i.writePropertiesResult = none) :
    restartRun i =
      (i.startResult,
       [REvent.moveFolder, REvent.writeProperties, REvent.startChild (some i.StorePath)] ++
         (if i.startResult.isSome then [] else [REvent.exitZero])) := by
  unfold restartRun
  rw [if_pos ⟨h1, h2, h3⟩]
  cases hs : i.startResult <;> simp [h4, h5, hs]

/-- Witness for C8 on a fully successful relocating restart. -/
theorem restart_success_order_witness :
    restartRun iReloc =
      (iReloc.startResult,
       [REvent.moveFolder, REvent.writeProperties,
        REvent.startChild (some iReloc.StorePath)] ++
         (if iReloc.startResult.isSome then [] else [REvent.exitZero])) :=
  restart_success_order iReloc rfl (by decide) (by decide) rfl rfl

/-- C9: on the relocating path, a `MoveFolder` failure returns that error
with no property-write, no spawn and no exit; a `WriteProperties` failure
returns that error with no spawn and no exit; a spawn failure returns the
spawn error and the trace contains no `exitZero`, so the original daemon
keeps running; and on the non-relocating path a spawn failure likewise
returns the error without exiting. -/
theorem restart_failure_halts (i : RestartInput) (e : String) :
    (i.postPathModification = true ∧ i.StorePath ≠ "" ∧ i.OriginPath ≠ "" →
       (i.moveFolderResult = some e → restartRun i = (some e, [REvent.moveFolder])) ∧
       (i.moveFolderResult = none → i.writePropertiesResult = some e →
          restartRun i = (some e, [REvent.moveFolder, REvent.writeProperties])) ∧
       (i.moveFolderResult = none → i.writePropertiesResult = none →
          i.startResult = some e →
          restartRun i = (some e, [REvent.moveFolder, REvent.writeProperties,
                                   REvent.startChild (some i.StorePath)]))) ∧
    (¬(i.postPathModification = true ∧ i.StorePath ≠ "" ∧ i.OriginPath ≠ "") →
       i.startResult = some e → restartRun i = (some e, [REvent.startChild none])) := by
  constructor
  · intro h
    refine ⟨?_, ?_, ?_⟩
    · intro hm
      unfold restartRun
      rw [if_pos h]
      simp [hm]
    · intro hm hw
      unfold restartRun
      rw [if_pos h]
      simp [hm, hw]
    · intro hm hw hs
      unfold restartRun
      rw [if_pos h]
      simp [hm, hw, hs]
  · intro h hs
    unfold restartRun
    rw [if_neg h]
    simp [hs]

/-- Witness for C9 at a relocating restart whose `MoveFolder` call fails. -/
theorem restart_failure_halts_witness :
    (iMoveFail.postPathModification = true ∧ iMoveFail.StorePath ≠ "" ∧
        iMoveFail.OriginPath ≠ "" →
       (iMoveFail.moveFolderResult = some "boom" →
          restartRun iMoveFail = (some "boom", [REvent.moveFolder])) ∧
       (iMoveFail.moveFolderResult = none → iMoveFail.writePropertiesResult = some "boom" →
          restartRun iMoveFail = (some "boom", [REvent.moveFolder, REvent.writeProperties])) ∧
       (iMoveFail.moveFolderResult = none → iMoveFail.writePropertiesResult = none →
          iMoveFail.startResult = some "boom" →
          restartRun iMoveFail =
            (some "boom", [REvent.moveFolder, REvent.writeProperties,
                           REvent.startChild (some iMoveFail.StorePath)]))) ∧
    (¬(iMoveFail.postPathModification = true ∧ iMoveFail.StorePath ≠ "" ∧
        iMoveFail.OriginPath ≠ "") →
       iMoveFail.startResult = some "boom" →
       restartRun iMoveFail = (some "boom", [REvent.startChild none])) :=
  restart_failure_halts iMoveFail "boom"

/-- C10: a successful password-set writes only the two encrypted fields:
the `UI` section (hence the `Initialized` flag), the plaintext `PrivKey`,
the plaintext `Mnemonic` and every other configuration field are unchanged
in the persisted config, and the encrypted fields hold exactly the
ciphertexts of the mnemonic and the private key under the supplied
password. -/
theorem setPassword_frame (cfg cfg' : Config) (p m : String)
    (hrun : walletPasswordRun cfg p = .ok (cfg', m)) :
    cfg'.UI = cfg.UI ∧
    cfg'.otherFields = cfg.otherFields ∧
    cfg'.Identity.PrivKey = cfg.Identity.PrivKey ∧
    cfg'.Identity.Mnemonic = cfg.Identity.Mnemonic ∧
    cfg'.Identity.EncryptedMnemonic = some { pw := p, pt := cfg.Identity.Mnemonic } ∧
    cfg'.Identity.EncryptedPrivKey = some { pw := p, pt := cfg.Identity.PrivKey } ∧
    m = "Password set." := by
  unfold walletPasswordRun at hrun
  by_cases h : cfg.UI.Wallet.Initialized
  · simp [h] at hrun
  · simp [h, EncryptWithAES] at hrun
    obtain ⟨hcfg, hm⟩ := hrun
    subst hm
    rw [← hcfg]
    simp

/-- Witness for C10 at the concrete first password-set on `cfg0`. -/
theorem setPassword_frame_witness :
    cfg0a.UI = cfg0.UI ∧
    cfg0a.otherFields = cfg0.otherFields ∧
    cfg0a.Identity.PrivKey = cfg0.Identity.PrivKey ∧
    cfg0a.Identity.Mnemonic = cfg0.Identity.Mnemonic ∧
    cfg0a.Identity.EncryptedMnemonic = some { pw := "a", pt := cfg0.Identity.Mnemonic } ∧
    cfg0a.Identity.EncryptedPrivKey = some { pw := "a", pt := cfg0.Identity.PrivKey } ∧
    "Password set." = "Password set." :=
  setPassword_frame cfg0 cfg0a "a" "Password set." rfl

end BTFS
